import Mathlib

/-!
Shallow embedding of the recurrence-resolution and aggregation engine of
`src/App.js` (my-availability-app).

Modelling conventions:
* Calendar dates are `Nat` day numbers (days since 1970-01-01, strictly
  positive for every date the application can produce); 1970-01-01 was a
  Thursday, so `weekday d = (d + 4) % 7` with 0 = Sunday, matching
  JavaScript `Date.getDay()`.  A `YYYY-MM-DD` string and the `Date` it
  parses to are both abstracted to this day number; the development works
  in a single time zone (UTC), which is the regime the date-matching
  claims quantify over.
* UTC instants (`startDateTimeUTC`, `endDateTimeUTC`) are `Nat` minutes
  since the epoch.
* A missing / `null` / `undefined` field is `Option.none`.
* JavaScript `Date >= null` coerces `null` to `0`; comparisons against a
  possibly-null recurrence bound in the month-relevance test are modelled
  with `Option.getD 0`, which agrees with JavaScript for the positive day
  numbers used here.
* A thrown `TypeError` (reading `.includes` of `undefined`) is modelled by
  `Except.error`, aborting the fold exactly as a throw aborts the
  `forEach` in the `onSnapshot` callback.
* `Array.prototype.sort` with comparator
  `new Date(a.startDateTimeUTC) - new Date(b.startDateTimeUTC)` is a
  stable sort by that key (ES2019 guarantees stability); it is modelled by
  `List.insertionSort`, which is stable for a reflexive total preorder.
-/

namespace AvailabilityApp

/-- The three values the app writes into `recurrenceType`:
`'none' | 'daily' | 'weekly'`. -/
inductive RecurrenceType where
  | none
  | daily
  | weekly
deriving DecidableEq

/-- One schedule record as stored in the `schedules` collection and consumed
by the filters in `App.js` / `ShareView`.  `id` is the document identifier
(abstracted to `Nat` so that "identifier ascending" is meaningful);
`date` is the anchor date of a one-time entry. -/
structure ScheduleEntry where
  id : Nat
  date : Nat
  startDateTimeUTC : Nat
  endDateTimeUTC : Nat
  activityName : String
  activityColor : String
  recurrenceType : RecurrenceType
  recurrenceDays : Option (List Nat)
  recurrenceStartDate : Option Nat
  recurrenceEndDate : Option Nat
deriving DecidableEq

/-- JavaScript `Date.getDay()` for a day number (0 = Sunday … 6 = Saturday). -/
def weekday (d : Nat) : Nat := (d + 4) % 7

/-- `isDateWithinRecurrenceRange` (App.js lines 401-405, ShareView lines
110-111): the candidate date is within the inclusive recurrence window,
an absent bound being unbounded on that side. -/
def isDateWithinRecurrenceRange (e : ScheduleEntry) (d : Nat) : Bool :=
  (match e.recurrenceStartDate with
   | Option.none => true
   | Option.some s => decide (s ≤ d)) &&
  (match e.recurrenceEndDate with
   | Option.none => true
   | Option.some t => decide (d ≤ t))

/-- `isOneTime` (App.js line 446): a `none` entry whose anchor date equals the
candidate date. -/
def isOneTime (e : ScheduleEntry) (d : Nat) : Bool :=
  decide (e.recurrenceType = RecurrenceType.none) && decide (e.date = d)

/-- `isDailyRecurring` (App.js line 447). -/
def isDailyRecurring (e : ScheduleEntry) : Bool :=
  decide (e.recurrenceType = RecurrenceType.daily)

/-- `isWeeklyRecurring` (App.js lines 448-450): type `weekly`, the
`recurrenceDays` field is present (truthy), and it contains the candidate
weekday. -/
def isWeeklyRecurring (e : ScheduleEntry) (d : Nat) : Bool :=
  decide (e.recurrenceType = RecurrenceType.weekly) && e.recurrenceDays.isSome &&
    (e.recurrenceDays.getD []).contains (weekday d)

/-- The occurrence matcher: the selected-date filter body of App.js lines
443-455 and, identically, ShareView lines 104-120.  Note that the
recurrence-window gate is applied to every entry, including `none` ones. -/
def dayMatches (e : ScheduleEntry) (d : Nat) : Bool :=
  isDateWithinRecurrenceRange e d &&
    (isOneTime e d || isDailyRecurring e || isWeeklyRecurring e d)

/-- The sort key relation of the comparators at App.js lines 459-463 and
ShareView lines 121-125: non-decreasing `startDateTimeUTC`. -/
def byStart (a b : ScheduleEntry) : Prop :=
  a.startDateTimeUTC ≤ b.startDateTimeUTC

instance : DecidableRel byStart := fun _ _ => Nat.decLe _ _

instance : IsTotal ScheduleEntry byStart := ⟨fun _ _ => Nat.le_total _ _⟩

instance : IsTrans ScheduleEntry byStart := ⟨fun _ _ _ h h' => Nat.le_trans h h'⟩

/-- Strict version of `byStart`, used to compare sorted outputs. -/
def byStartLt (a b : ScheduleEntry) : Prop :=
  a.startDateTimeUTC < b.startDateTimeUTC

instance : IsAntisymm ScheduleEntry byStartLt :=
  ⟨fun _ _ h h' => absurd (Nat.lt_trans h h') (Nat.lt_irrefl _)⟩

/-- `occurrencesOnDate`: filter to the entries matching the date, then the
stable sort by `startDateTimeUTC` (App.js lines 443-463, ShareView lines
104-125). -/
def occurrencesOnDate (entries : List ScheduleEntry) (d : Nat) : List ScheduleEntry :=
  List.insertionSort byStart (entries.filter (fun e => dayMatches e d))

/-- A daily entry with both recurrence bounds present, used to instantiate the
matcher theorems. -/
def c4entry : ScheduleEntry :=
  { id := 4, date := 19792, startDateTimeUTC := 540, endDateTimeUTC := 600,
    activityName := "Work", activityColor := "#ff0000",
    recurrenceType := RecurrenceType.daily, recurrenceDays := Option.none,
    recurrenceStartDate := Option.some 19790, recurrenceEndDate := Option.some 19800 }

/-- A one-time (`none`) entry carrying recurrence-window fields that exclude its
own anchor date 19792 (window starts at 19800). -/
def c5entry : ScheduleEntry :=
  { id := 5, date := 19792, startDateTimeUTC := 540, endDateTimeUTC := 600,
    activityName := "Gym", activityColor := "#00ff00",
    recurrenceType := RecurrenceType.none, recurrenceDays := Option.none,
    recurrenceStartDate := Option.some 19800, recurrenceEndDate := Option.none }

/-- A one-time (`none`) entry with absent window fields, the shape the app
itself persists for `none` entries. -/
def c5entryB : ScheduleEntry :=
  { id := 6, date := 19792, startDateTimeUTC := 540, endDateTimeUTC := 600,
    activityName := "Gym", activityColor := "#00ff00",
    recurrenceType := RecurrenceType.none, recurrenceDays := Option.none,
    recurrenceStartDate := Option.none, recurrenceEndDate := Option.none }

/-- A weekly entry on Monday and Wednesday with an open-ended window. -/
def c6entry : ScheduleEntry :=
  { id := 7, date := 19792, startDateTimeUTC := 540, endDateTimeUTC := 600,
    activityName := "Class", activityColor := "#0000ff",
    recurrenceType := RecurrenceType.weekly, recurrenceDays := Option.some [1, 3],
    recurrenceStartDate := Option.some 19790, recurrenceEndDate := Option.none }

/-- A malformed weekly entry whose `recurrenceDays` field is missing. -/
def c9entry : ScheduleEntry :=
  { id := 9, date := 19792, startDateTimeUTC := 540, endDateTimeUTC := 600,
    activityName := "Broken", activityColor := "#000000",
    recurrenceType := RecurrenceType.weekly, recurrenceDays := Option.none,
    recurrenceStartDate := Option.some 19790, recurrenceEndDate := Option.none }

/-- Claim C4: an entry with recurrence type `daily` matches a candidate date `d`
iff `d` lies within the inclusive recurrence window `[s, t]`, an absent bound
meaning unbounded on that side; in particular the bounds themselves match. -/
theorem daily_matches_iff_window (e : ScheduleEntry) (d : Nat)
    (h : e.recurrenceType = RecurrenceType.daily) :
    dayMatches e d = true ↔
      ((∀ s, e.recurrenceStartDate = Option.some s → s ≤ d) ∧
       (∀ t, e.recurrenceEndDate = Option.some t → d ≤ t)) := by
  rcases hs : e.recurrenceStartDate with _ | s <;>
    rcases ht : e.recurrenceEndDate with _ | t <;>
      simp [dayMatches, isOneTime, isDailyRecurring, isWeeklyRecurring,
        isDateWithinRecurrenceRange, h, hs, ht]

/-- Witness for C4: the daily entry with window `[19790, 19800]` matches its
start date 19790 itself. -/
theorem daily_matches_iff_window_witness : dayMatches c4entry 19790 = true :=
  (daily_matches_iff_window c4entry 19790 rfl).mpr (by decide)

/-- Claim C5 counterexample: a `none` entry whose recurrence-window fields are
present and exclude its anchor date does NOT match on the anchor date — the
window fields are not ignored, contrary to the claim. -/
theorem none_entry_window_not_ignored :
    c5entry.recurrenceType = RecurrenceType.none ∧ c5entry.date = 19792 ∧
      dayMatches c5entry 19792 = false := by decide

/-- Claim C5 (amended): a `none` entry matches a candidate date `d` iff `d`
lies within its recurrence window (absent bound = unbounded) AND `d` equals
the anchor date; the window fields, when present, are applied, not ignored.
For entries the app itself creates the window fields are absent, so the
condition reduces to `d = anchorDate`. -/
theorem none_matches_iff_anchor_and_window (e : ScheduleEntry) (d : Nat)
    (h : e.recurrenceType = RecurrenceType.none) :
    dayMatches e d = true ↔
      ((∀ s, e.recurrenceStartDate = Option.some s → s ≤ d) ∧
       (∀ t, e.recurrenceEndDate = Option.some t → d ≤ t) ∧
       e.date = d) := by
  rcases hs : e.recurrenceStartDate with _ | s <;>
    rcases ht : e.recurrenceEndDate with _ | t <;>
      simp [dayMatches, isOneTime, isDailyRecurring, isWeeklyRecurring,
        isDateWithinRecurrenceRange, h, hs, ht] <;> tauto

/-- Witness for C5 (amended): a `none` entry with absent window fields matches
exactly its anchor date. -/
theorem none_matches_iff_anchor_and_window_witness : dayMatches c5entryB 19792 = true :=
  (none_matches_iff_anchor_and_window c5entryB 19792 rfl).mpr (by decide)

/-- Claim C6: an entry with recurrence type `weekly` and weekday set `days`
matches a candidate date `d` iff `d` lies within the inclusive recurrence
window and the weekday index of `d` (0 = Sunday … 6 = Saturday) is an element
of `days`. -/
theorem weekly_matches_iff_window_and_day (e : ScheduleEntry) (d : Nat) (days : List Nat)
    (h : e.recurrenceType = RecurrenceType.weekly) (hd : e.recurrenceDays = Option.some days) :
    dayMatches e d = true ↔
      ((∀ s, e.recurrenceStartDate = Option.some s → s ≤ d) ∧
       (∀ t, e.recurrenceEndDate = Option.some t → d ≤ t) ∧
       weekday d ∈ days) := by
  rcases hs : e.recurrenceStartDate with _ | s <;>
    rcases ht : e.recurrenceEndDate with _ | t <;>
      simp [dayMatches, isOneTime, isDailyRecurring, isWeeklyRecurring,
        isDateWithinRecurrenceRange, h, hd, hs, ht] <;> tauto

/-- Witness for C6: day 19793 (2024-03-11, a Monday, weekday index 1) is in
the weekday set `[1, 3]` of `c6entry` and inside its window, so it matches. -/
theorem weekly_matches_iff_window_and_day_witness : dayMatches c6entry 19793 = true :=
  (weekly_matches_iff_window_and_day c6entry 19793 [1, 3] rfl rfl).mpr (by decide)

/-- Claim C9: a `weekly` entry whose `recurrenceDays` field is absent or the
empty list is never included in the day-view occurrence list for any date —
the day filter guards the field and silently treats the entry as matching
nothing (the filter is a total Boolean function, so no error is raised). -/
theorem weekly_without_days_never_matches (e : ScheduleEntry)
    (h : e.recurrenceType = RecurrenceType.weekly)
    (hd : e.recurrenceDays = Option.none ∨ e.recurrenceDays = Option.some []) :
    ∀ d, dayMatches e d = false := by
  intro d
  rcases hd with hd | hd <;>
    simp [dayMatches, isOneTime, isDailyRecurring, isWeeklyRecurring, h, hd]

/-- Witness for C9: the malformed weekly entry `c9entry` (missing
`recurrenceDays`) does not match day 19793 even though that day is inside its
window. -/
theorem weekly_without_days_never_matches_witness : dayMatches c9entry 19793 = false :=
  weekly_without_days_never_matches c9entry rfl (Or.inl rfl) 19793

deriving instance DecidableEq for Except

/-- JavaScript `Map.set` on an association list: update in place if the key is
present (keeping its position), otherwise append. -/
def setKey (m : List (Nat × String)) (k : Nat) (v : String) : List (Nat × String) :=
  if m.any (fun p => p.1 == k) then
    m.map (fun p => if p.1 == k then (k, v) else p)
  else m ++ [(k, v)]

/-- `entry.date` falls in the displayed month, i.e. `getMonth()` and
`getFullYear()` both agree with `currentMonth` (App.js lines 409-410, 420);
with the month abstracted to its inclusive day range `[monthStart, monthEnd]`
this is exactly range membership. -/
def dateInMonth (monthStart monthEnd d : Nat) : Bool :=
  decide (monthStart ≤ d) && decide (d ≤ monthEnd)

/-- `isRelevantForMonth` (App.js lines 408-415), with the source's operator
precedence kept exactly: `&&` binds tighter than `||`, so the
`recurrenceType !== 'none'` conjunct guards only the first of the three
recurring-entry disjuncts.  A `null` recurrence bound compared with `>=` /
`<=` coerces to 0 in JavaScript, modelled by `Option.getD 0`. -/
def isRelevantForMonth (e : ScheduleEntry) (monthStart monthEnd : Nat) : Bool :=
  (decide (e.recurrenceType = RecurrenceType.none) &&
      dateInMonth monthStart monthEnd e.date) ||
  ((decide (e.recurrenceType ≠ RecurrenceType.none) &&
      isDateWithinRecurrenceRange e monthStart) ||
   isDateWithinRecurrenceRange e monthEnd ||
   (decide (e.recurrenceStartDate.getD 0 ≤ monthStart) &&
      decide (monthEnd ≤ e.recurrenceEndDate.getD 0)))

/-- One iteration of the recurring-entry month loop (App.js lines 426-438) at
day `d`: set the indicator when the day is in the window and the rule fires.
For a `weekly` entry the source reads `entry.recurrenceDays.includes(...)`
without a guard, so a missing `recurrenceDays` throws a `TypeError`,
modelled as `Except.error`. -/
def monthDotDay (e : ScheduleEntry) (acc : List (Nat × String)) (d : Nat) :
    Except String (List (Nat × String)) :=
  if isDateWithinRecurrenceRange e d then
    if e.recurrenceType = RecurrenceType.daily then
      Except.ok (setKey acc d e.activityColor)
    else if e.recurrenceType = RecurrenceType.weekly then
      match e.recurrenceDays with
      | Option.none => Except.error "TypeError: Cannot read properties of undefined"
      | Option.some days =>
        if days.contains (weekday d) then Except.ok (setKey acc d e.activityColor)
        else Except.ok acc
    else Except.ok acc
  else Except.ok acc

/-- The per-entry body of the month-indicator computation (App.js lines
417-440): skip the entry unless `isRelevantForMonth`; a `none` entry sets its
anchor date when it is in the month; a recurring entry walks every day of the
month. -/
def entryMonthStep (monthStart monthEnd : Nat) (m : List (Nat × String))
    (e : ScheduleEntry) : Except String (List (Nat × String)) :=
  if isRelevantForMonth e monthStart monthEnd then
    if e.recurrenceType = RecurrenceType.none then
      if dateInMonth monthStart monthEnd e.date then
        Except.ok (setKey m e.date e.activityColor)
      else Except.ok m
    else
      (List.range (monthEnd + 1 - monthStart)).foldlM
        (fun acc i => monthDotDay e acc (monthStart + i)) m
  else Except.ok m

/-- `datesWithActivities` as built by the monthly `onSnapshot` callback
(App.js lines 391-456): fold `entryMonthStep` over the snapshot in iteration
order.  An exception thrown for any entry aborts the whole fold, as a throw
inside `forEach` aborts the callback. -/
def monthIndicators (entries : List ScheduleEntry) (monthStart monthEnd : Nat) :
    Except String (List (Nat × String)) :=
  entries.foldlM (entryMonthStep monthStart monthEnd) []

/-- The whole monthly `onSnapshot` callback (App.js lines 386-463): the
indicator map together with the sorted occurrence list for the selected date.
In the source the two are interleaved per entry inside one `forEach`, but the
selected-date part is pure and total, so a throw in the month part discards
both results and the sequential form below is extensionally identical. -/
def processSnapshot (entries : List ScheduleEntry) (monthStart monthEnd selectedDate : Nat) :
    Except String (List (Nat × String) × List ScheduleEntry) :=
  (monthIndicators entries monthStart monthEnd).map
    (fun m => (m, occurrencesOnDate entries selectedDate))

/-- A daily entry whose recurrence window `[19792, 19794]`
(2024-03-10 … 2024-03-12) lies strictly inside March 2024. -/
def c1entry : ScheduleEntry :=
  { id := 1, date := 19792, startDateTimeUTC := 540, endDateTimeUTC := 600,
    activityName := "Work", activityColor := "#ff0000",
    recurrenceType := RecurrenceType.daily, recurrenceDays := Option.none,
    recurrenceStartDate := Option.some 19792, recurrenceEndDate := Option.some 19794 }

/-- A well-formed daily entry with an open-ended window. -/
def c8good : ScheduleEntry :=
  { id := 2, date := 19792, startDateTimeUTC := 540, endDateTimeUTC := 600,
    activityName := "Work", activityColor := "#ff0000",
    recurrenceType := RecurrenceType.daily, recurrenceDays := Option.none,
    recurrenceStartDate := Option.none, recurrenceEndDate := Option.none }

/-- A malformed weekly entry (missing `recurrenceDays`) whose window covers
March 2024. -/
def c8bad : ScheduleEntry :=
  { id := 3, date := 19792, startDateTimeUTC := 540, endDateTimeUTC := 600,
    activityName := "Broken", activityColor := "#000000",
    recurrenceType := RecurrenceType.weekly, recurrenceDays := Option.none,
    recurrenceStartDate := Option.some 19783, recurrenceEndDate := Option.some 19813 }

/-- Claim C1, falsified on the code: over March 2024 (days 19783 … 19813) the
daily entry `c1entry`, whose window lies strictly inside the month, matches
day 19792, yet the month-indicator map comes out empty — all three
`isRelevantForMonth` disjuncts for recurring entries are false when the window
is strictly inside the month, so the entry is skipped and its matching dates
are absent from the map. -/
theorem month_indicators_drop_window_inside_month :
    dayMatches c1entry 19792 = true ∧
      monthIndicators [c1entry] 19783 19813 = Except.ok [] := by decide

/-- Claim C8, falsified on the code: with a snapshot holding a well-formed
daily entry and a malformed weekly entry (missing `recurrenceDays`), the
aggregation callback throws a `TypeError` in the month loop and aborts —
neither the indicator map nor the day view is produced, even though the
well-formed entry matches the selected date 19792. -/
theorem malformed_record_aborts_aggregation :
    dayMatches c8good 19792 = true ∧
      processSnapshot [c8good, c8bad] 19783 19813 19792 =
        Except.error "TypeError: Cannot read properties of undefined" := by decide

/-- A daily entry with identifier 5; same `startDateTimeUTC` as `tieEntryB`. -/
def tieEntryA : ScheduleEntry :=
  { id := 5, date := 19792, startDateTimeUTC := 540, endDateTimeUTC := 600,
    activityName := "A", activityColor := "#ff0000",
    recurrenceType := RecurrenceType.daily, recurrenceDays := Option.none,
    recurrenceStartDate := Option.none, recurrenceEndDate := Option.none }

/-- A daily entry with identifier 3; same `startDateTimeUTC` as `tieEntryA`. -/
def tieEntryB : ScheduleEntry :=
  { id := 3, date := 19792, startDateTimeUTC := 540, endDateTimeUTC := 700,
    activityName := "B", activityColor := "#00ff00",
    recurrenceType := RecurrenceType.daily, recurrenceDays := Option.none,
    recurrenceStartDate := Option.none, recurrenceEndDate := Option.none }

/-- Claim C2 counterexample: two matching entries with identical UTC start
instants, delivered with the larger identifier first, come out of the
occurrence list in input order (ids `[5, 3]`), not in ascending identifier
order — the comparator uses only `startDateTimeUTC` and has no identifier
tie-break. -/
theorem occurrences_tie_not_id_ascending :
    tieEntryA.startDateTimeUTC = tieEntryB.startDateTimeUTC ∧
      (occurrencesOnDate [tieEntryA, tieEntryB] 19792).map (fun e => e.id) = [5, 3] ∧
      ¬ ((occurrencesOnDate [tieEntryA, tieEntryB] 19792).Pairwise
          (fun a b => a.startDateTimeUTC < b.startDateTimeUTC ∨
            (a.startDateTimeUTC = b.startDateTimeUTC ∧ a.id ≤ b.id))) := by decide

/-- Claim C2 (amended): the occurrence list for a date is sorted
non-decreasing by `startDateTimeUTC` and is a permutation of the matching
entries; ties keep storage-iteration (input) order — the sort is stable —
rather than ascending identifier order. -/
theorem occurrences_sorted_by_start (entries : List ScheduleEntry) (d : Nat) :
    (occurrencesOnDate entries d).Sorted byStart ∧
      (occurrencesOnDate entries d).Perm (entries.filter (fun e => dayMatches e d)) :=
  ⟨List.sorted_insertionSort byStart _, List.perm_insertionSort byStart _⟩

/-- Claim C3 counterexample: the two snapshot orders `[tieEntryA, tieEntryB]`
and `[tieEntryB, tieEntryA]` are permutations of the same entry set, yet the
occurrence lists they produce differ — with identical start instants the
stable sort preserves the storage iteration order. -/
theorem occurrences_not_permutation_invariant :
    List.Perm [tieEntryA, tieEntryB] [tieEntryB, tieEntryA] ∧
      occurrencesOnDate [tieEntryA, tieEntryB] 19792 ≠
        occurrencesOnDate [tieEntryB, tieEntryA] 19792 :=
  ⟨List.Perm.swap tieEntryB tieEntryA [], by decide⟩

/-- Claim C3 (amended): recomputing from the identical entry sequence yields
identical output (the aggregation is a pure function), and the output is
independent of the storage-layer iteration order whenever no two entries
share a UTC start instant; with ties the order of the tied entries follows
the input order, so full permutation-invariance fails. -/
theorem occurrences_perm_invariant_of_distinct_starts
    (entries₁ entries₂ : List ScheduleEntry) (d : Nat)
    (hperm : entries₁.Perm entries₂)
    (hdistinct : entries₁.Pairwise
      (fun a b => a.startDateTimeUTC ≠ b.startDateTimeUTC)) :
    occurrencesOnDate entries₁ d = occurrencesOnDate entries₂ d := by
  have hsym : ∀ {a b : ScheduleEntry},
      a.startDateTimeUTC ≠ b.startDateTimeUTC →
        b.startDateTimeUTC ≠ a.startDateTimeUTC := fun h h' => h h'.symm
  have hfperm : (entries₁.filter (fun e => dayMatches e d)).Perm
      (entries₂.filter (fun e => dayMatches e d)) := hperm.filter _
  have hoccperm : (occurrencesOnDate entries₁ d).Perm (occurrencesOnDate entries₂ d) :=
    (List.perm_insertionSort byStart _).trans
      (hfperm.trans (List.perm_insertionSort byStart _).symm)
  have hd₁ : (entries₁.filter (fun e => dayMatches e d)).Pairwise
      (fun a b => a.startDateTimeUTC ≠ b.startDateTimeUTC) :=
    hdistinct.sublist (List.filter_sublist _)
  have hdS₁ : (occurrencesOnDate entries₁ d).Pairwise
      (fun a b => a.startDateTimeUTC ≠ b.startDateTimeUTC) :=
    ((List.perm_insertionSort byStart _).pairwise_iff fun h => hsym h).mpr hd₁
  have hdS₂ : (occurrencesOnDate entries₂ d).Pairwise
      (fun a b => a.startDateTimeUTC ≠ b.startDateTimeUTC) :=
    ((List.perm_insertionSort byStart _).pairwise_iff fun h => hsym h).mpr
      ((hfperm.pairwise_iff fun h => hsym h).mp hd₁)
  have hs₁ : (occurrencesOnDate entries₁ d).Pairwise byStart :=
    List.sorted_insertionSort byStart _
  have hs₂ : (occurrencesOnDate entries₂ d).Pairwise byStart :=
    List.sorted_insertionSort byStart _
  have hlt₁ : List.Sorted byStartLt (occurrencesOnDate entries₁ d) :=
    (hs₁.and hdS₁).imp fun h => Nat.lt_of_le_of_ne h.1 h.2
  have hlt₂ : List.Sorted byStartLt (occurrencesOnDate entries₂ d) :=
    (hs₂.and hdS₂).imp fun h => Nat.lt_of_le_of_ne h.1 h.2
  exact List.eq_of_perm_of_sorted hoccperm hlt₁ hlt₂

/-- A daily entry with start instant 540, distinct from `permEntryB`. -/
def permEntryA : ScheduleEntry :=
  { id := 1, date := 19792, startDateTimeUTC := 540, endDateTimeUTC := 600,
    activityName := "A", activityColor := "#ff0000",
    recurrenceType := RecurrenceType.daily, recurrenceDays := Option.none,
    recurrenceStartDate := Option.none, recurrenceEndDate := Option.none }

/-- A daily entry with start instant 600, distinct from `permEntryA`. -/
def permEntryB : ScheduleEntry :=
  { id := 2, date := 19792, startDateTimeUTC := 600, endDateTimeUTC := 700,
    activityName := "B", activityColor := "#00ff00",
    recurrenceType := RecurrenceType.daily, recurrenceDays := Option.none,
    recurrenceStartDate := Option.none, recurrenceEndDate := Option.none }

/-- Witness for C3 (amended): two snapshot orders of two entries with distinct
start instants yield the same occurrence list. -/
theorem occurrences_perm_invariant_of_distinct_starts_witness :
    occurrencesOnDate [permEntryA, permEntryB] 19792 =
      occurrencesOnDate [permEntryB, permEntryA] 19792 :=
  occurrences_perm_invariant_of_distinct_starts _ _ 19792
    (List.Perm.swap permEntryB permEntryA []) (by decide)

/-- An activity item as stored in the `activityItems` collection. -/
structure Activity where
  id : String
  name : String
  color : String
deriving DecidableEq

/-- The record `handleAddScheduleEntry` persists via `addDoc` (App.js lines
689-702). -/
structure SchedulePayload where
  date : Nat
  startDateTimeUTC : Nat
  endDateTimeUTC : Nat
  activityId : String
  activityName : String
  activityColor : String
  recurrenceType : RecurrenceType
  recurrenceDays : List Nat
  recurrenceStartDate : Option Nat
  recurrenceEndDate : Option Nat
deriving DecidableEq

/-- The recurrence-validation block of `handleAddScheduleEntry` (App.js lines
665-678): returns the error message of the first failing check, or nothing
when all pass.  For `recurrenceType = 'none'` no recurrence check runs. -/
def checkRecurrence (rt : RecurrenceType) (recurrenceDays : List Nat)
    (recurrenceStartDate recurrenceEndDate : Option Nat) : Option String :=
  if rt = RecurrenceType.none then Option.none
  else if recurrenceStartDate.isNone then
    Option.some "Please provide a start date for the repeating schedule."
  else if recurrenceEndDate.isSome ∧ recurrenceEndDate.getD 0 < recurrenceStartDate.getD 0 then
    Option.some "Recurrence end date cannot be before start date."
  else if rt = RecurrenceType.weekly ∧ recurrenceDays = [] then
    Option.some "Please select at least one day for weekly recurrence."
  else Option.none

/-- `handleAddScheduleEntry` (App.js lines 650-716).  `sd` is the selected
date (day number), `st`/`et` the start/end times in minutes of the day; the
local datetimes are `sd` combined with the times, and in the single-zone
model of this development they are also the persisted UTC instants.
`Except.error` is the `setError(...)` early return, on which nothing reaches
`addDoc`; `Except.ok` carries the payload passed to `addDoc`. -/
def handleAddScheduleEntry (sd : Option Nat) (aid : Option String)
    (st et : Option Nat) (rt : RecurrenceType) (recurrenceDays : List Nat)
    (recurrenceStartDate recurrenceEndDate : Option Nat)
    (activityItems : List Activity) : Except String SchedulePayload :=
  match sd, aid, st, et with
  | Option.some d, Option.some aid', Option.some st', Option.some et' =>
    if d * 1440 + et' ≤ d * 1440 + st' then
      Except.error "End time must be after start time."
    else
      match checkRecurrence rt recurrenceDays recurrenceStartDate recurrenceEndDate with
      | Option.some msg => Except.error msg
      | Option.none =>
        match activityItems.find? (fun item => item.id == aid') with
        | Option.none => Except.error "Selected activity not found."
        | Option.some selectedActivity =>
          Except.ok
            { date := d
              startDateTimeUTC := d * 1440 + st'
              endDateTimeUTC := d * 1440 + et'
              activityId := aid'
              activityName := selectedActivity.name
              activityColor := selectedActivity.color
              recurrenceType := rt
              recurrenceDays :=
                if rt = RecurrenceType.weekly then recurrenceDays else []
              recurrenceStartDate :=
                if rt ≠ RecurrenceType.none then recurrenceStartDate else Option.none
              recurrenceEndDate :=
                if rt ≠ RecurrenceType.none ∧ recurrenceEndDate.isSome then
                  recurrenceEndDate
                else Option.none }
  | _, _, _, _ =>
    Except.error "Please select a date, activity, start time, and end time."

/-- The recurrence checks pass exactly when: a recurrence start date is
present for a recurring entry, the window is ordered when both bounds are
present, and a weekly entry has a non-empty weekday set. -/
theorem checkRecurrence_isNone_iff (rt : RecurrenceType) (recurrenceDays : List Nat)
    (recurrenceStartDate recurrenceEndDate : Option Nat) :
    checkRecurrence rt recurrenceDays recurrenceStartDate recurrenceEndDate = Option.none ↔
      ((rt ≠ RecurrenceType.none → recurrenceStartDate.isSome) ∧
       (∀ s t, rt ≠ RecurrenceType.none → recurrenceStartDate = Option.some s →
          recurrenceEndDate = Option.some t → s ≤ t) ∧
       (rt = RecurrenceType.weekly → recurrenceDays ≠ [])) := by
  cases rt <;> rcases recurrenceStartDate with _ | s <;>
    rcases recurrenceEndDate with _ | t <;>
      simp [checkRecurrence] <;>
        first
          | omega
          | (split_ifs <;> simp_all <;> omega)

/-- Claim C7: with the form fields present and the referenced activity
existing, creation succeeds past validation iff the start instant is
strictly before the end instant, a recurring entry has a recurrence start
date, a present recurrence window is ordered (`start ≤ end`), and a weekly
entry has a non-empty weekday set; otherwise it fails with a validation
error and nothing reaches storage. -/
theorem creation_validates_iff (d st et : Nat) (aid : String)
    (rt : RecurrenceType) (recurrenceDays : List Nat)
    (recurrenceStartDate recurrenceEndDate : Option Nat)
    (activityItems : List Activity)
    (hact : (activityItems.find? (fun item => item.id == aid)).isSome = true) :
    (∃ p, handleAddScheduleEntry (Option.some d) (Option.some aid)
        (Option.some st) (Option.some et) rt recurrenceDays
        recurrenceStartDate recurrenceEndDate activityItems = Except.ok p) ↔
      (st < et ∧
       (rt ≠ RecurrenceType.none → recurrenceStartDate.isSome) ∧
       (∀ s t, rt ≠ RecurrenceType.none → recurrenceStartDate = Option.some s →
          recurrenceEndDate = Option.some t → s ≤ t) ∧
       (rt = RecurrenceType.weekly → recurrenceDays ≠ [])) := by
  cases hfind : activityItems.find? (fun item => item.id == aid) with
  | none => rw [hfind] at hact; simp at hact
  | some a =>
    simp only [handleAddScheduleEntry, hfind]
    by_cases hle : d * 1440 + et ≤ d * 1440 + st
    · rw [if_pos hle]
      constructor
      · rintro ⟨p, hp⟩
        exact absurd hp (by simp)
      · rintro ⟨hlt, -, -, -⟩
        exact absurd hle (by omega)
    · rw [if_neg hle]
      cases hcr : checkRecurrence rt recurrenceDays recurrenceStartDate recurrenceEndDate with
      | some msg =>
        constructor
        · rintro ⟨p, hp⟩
          exact absurd hp (by simp)
        · rintro ⟨-, h₁, h₂, h₃⟩
          have hnone := (checkRecurrence_isNone_iff rt recurrenceDays
            recurrenceStartDate recurrenceEndDate).mpr ⟨h₁, h₂, h₃⟩
          rw [hcr] at hnone
          exact Option.noConfusion hnone
      | none =>
        constructor
        · intro _
          have hok := (checkRecurrence_isNone_iff rt recurrenceDays
            recurrenceStartDate recurrenceEndDate).mp hcr
          exact ⟨by omega, hok.1, hok.2.1, hok.2.2⟩
        · intro _
          exact ⟨_, rfl⟩

/-- The activity referenced by the C7 witness creation. -/
def c7activity : Activity := { id := "a1", name := "Work", color := "#ffffff" }

/-- Witness for C7: a daily entry from 09:00 to 10:00 with a recurrence start
date and no end date passes validation and reaches storage. -/
theorem creation_validates_iff_witness :
    ∃ p, handleAddScheduleEntry (Option.some 19792) (Option.some "a1")
        (Option.some 540) (Option.some 600) RecurrenceType.daily []
        (Option.some 19790) Option.none [c7activity] = Except.ok p :=
  (creation_validates_iff 19792 540 600 "a1" RecurrenceType.daily []
      (Option.some 19790) Option.none [c7activity] (by decide)).mpr
    ⟨by decide, by decide, by simp, by simp⟩

/-- Claim C10: every entry the creation handler persists with recurrence type
`none` has `recurrenceStartDate = null`, `recurrenceEndDate = null` and
`recurrenceDays = []`, and every persisted entry whose recurrence type is not
`weekly` has `recurrenceDays = []`. -/
theorem created_entry_recurrence_field_invariant
    (sd : Option Nat) (aid : Option String) (st et : Option Nat)
    (rt : RecurrenceType) (recurrenceDays : List Nat)
    (recurrenceStartDate recurrenceEndDate : Option Nat)
    (activityItems : List Activity) (p : SchedulePayload)
    (h : handleAddScheduleEntry sd aid st et rt recurrenceDays
        recurrenceStartDate recurrenceEndDate activityItems = Except.ok p) :
    (rt = RecurrenceType.none → p.recurrenceStartDate = Option.none ∧
        p.recurrenceEndDate = Option.none ∧ p.recurrenceDays = []) ∧
    (rt ≠ RecurrenceType.weekly → p.recurrenceDays = []) := by
  unfold handleAddScheduleEntry at h
  split at h
  · split at h
    · exact absurd h (by simp)
    · split at h
      · exact absurd h (by simp)
      · split at h
        · exact absurd h (by simp)
        · injection h with h
          subst h
          constructor
          · intro hrt
            subst hrt
            simp
          · intro hrt
            simp [if_neg hrt]
  · exact absurd h (by simp)

/-- The activity referenced by the C10 witness creation. -/
def c10activity : Activity := { id := "a2", name := "Rest", color := "#000000" }

/-- The payload the C10 witness creation persists. -/
def c10payload : SchedulePayload :=
  { date := 19792, startDateTimeUTC := 19792 * 1440 + 540,
    endDateTimeUTC := 19792 * 1440 + 600, activityId := "a2",
    activityName := "Rest", activityColor := "#000000",
    recurrenceType := RecurrenceType.none, recurrenceDays := [],
    recurrenceStartDate := Option.none, recurrenceEndDate := Option.none }

/-- Witness for C10: a concrete `none` creation persists null window fields
and an empty weekday list. -/
theorem created_entry_recurrence_field_invariant_witness :
    c10payload.recurrenceStartDate = Option.none ∧
      c10payload.recurrenceEndDate = Option.none ∧ c10payload.recurrenceDays = [] :=
  (created_entry_recurrence_field_invariant (Option.some 19792) (Option.some "a2")
      (Option.some 540) (Option.some 600) RecurrenceType.none [] (Option.some 19800)
      (Option.some 19700) [c10activity] c10payload (by decide)).1 rfl

end AvailabilityApp
